import Mathlib

/-!
# Verification of the Watchtower triage bot (src/main.py)

Shallow embedding of the item lifecycle and triage/routing engine of
`src/main.py`.  The sqlite `items` table is modelled as a `List Item`
(`Store`), with each database helper of the source translated into a pure
Lean function over it.  Timestamps are modelled as natural numbers (UTC
seconds); ISO-8601 UTC strings compare consistently with this order.
The Telegram / Google-Sheets transports are modelled by an `Env` of
configuration flags plus success oracles, exactly mirroring the guard
structure of `post_to_topic` and `append_to_sheets`.
-/

/-- One row of the sqlite `items` table (src/main.py, `init_db`, lines
161-174).  `action`, `category` and `filed_at` default to NULL, modelled
as `Option`. -/
structure Item where
  item_id : String
  source_url : String
  source_type : String
  source_name : String
  title : String
  raw_text : String
  summary_json : String
  status : String
  action : Option String
  category : Option String
  created_at : Nat
  filed_at : Option Nat
deriving DecidableEq

/-- The `items` table. -/
abbrev Store := List Item

/-- Function `item_exists` (lines 194-201): existence check by `source_url`. -/
def item_exists (s : Store) (source_url : String) : Bool :=
  s.any (fun it => it.source_url == source_url)

/-! ## SHA-256 (`hashlib.sha256`), used by `generate_item_id` -/

/-- The constant `2^32`, word modulus of SHA-256. -/
def M32 : Nat := 4294967296

/-- Right rotation of a 32-bit word (input assumed `< 2^32`). -/
def rotr32 (n x : Nat) : Nat :=
  (x >>> n) + ((x % 2 ^ n) <<< (32 - n))

/-- SHA-256 small sigma 0. -/
def sha_s0 (x : Nat) : Nat := (rotr32 7 x) ^^^ (rotr32 18 x) ^^^ (x >>> 3)

/-- SHA-256 small sigma 1. -/
def sha_s1 (x : Nat) : Nat := (rotr32 17 x) ^^^ (rotr32 19 x) ^^^ (x >>> 10)

/-- SHA-256 round constants. -/
def shaK : List Nat :=
  [1116352408, 1899447441, 3049323471, 3921009573, 961987163,
   1508970993, 2453635748, 2870763221, 3624381080, 310598401,
   607225278, 1426881987, 1925078388, 2162078206, 2614888103,
   3248222580, 3835390401, 4022224774, 264347078, 604807628,
   770255983, 1249150122, 1555081692, 1996064986, 2554220882,
   2821834349, 2952996808, 3210313671, 3336571891, 3584528711,
   113926993, 338241895, 666307205, 773529912, 1294757372,
   1396182291, 1695183700, 1986661051, 2177026350, 2456956037,
   2730485921, 2820302411, 3259730800, 3345764771, 3516065817,
   3600352804, 4094571909, 275423344, 430227734, 506948616,
   659060556, 883997877, 958139571, 1322822218, 1537002063,
   1747873779, 1955562222, 2024104815, 2227730452, 2361852424,
   2428436474, 2756734187, 3204031479, 3329325298]

/-- SHA-256 initial hash value. -/
def shaH0 : List Nat :=
  [1779033703, 3144134277, 1013904242, 2773480762,
   1359893119, 2600822924, 528734635, 1541459225]

/-- Big-endian byte decomposition of `n` into `k` bytes. -/
def beBytes (k n : Nat) : List Nat :=
  (List.range k).map (fun i => (n >>> (8 * (k - 1 - i))) % 256)

/-- SHA-256 message padding (append `0x80`, zeros, and the 64-bit
big-endian bit length). -/
def padMessage (msg : List Nat) : List Nat :=
  let L := msg.length
  let padZeros := (119 - (L % 64)) % 64
  msg ++ [0x80] ++ List.replicate padZeros 0 ++ beBytes 8 (8 * L)

/-- Group a byte list into big-endian 32-bit words. -/
def toWords : List Nat → List Nat
  | b0 :: b1 :: b2 :: b3 :: rest =>
    (((b0 * 256 + b1) * 256 + b2) * 256 + b3) :: toWords rest
  | _ => []

/-- Split a word list into 16-word chunks. -/
def chunks16 (ws : List Nat) : List (List Nat) :=
  if h : ws = [] then []
  else
    have : (ws.drop 16).length < ws.length := by
      have hp : 0 < ws.length := List.length_pos.mpr h
      simp only [List.length_drop]
      omega
    (ws.take 16) :: chunks16 (ws.drop 16)
termination_by ws.length

/-- Extend the 16-word chunk by `k` schedule words. -/
def extendW (w : List Nat) : Nat → List Nat
  | 0 => w
  | k + 1 =>
    let n := w.length
    let nw := (w.getD (n - 16) 0 + sha_s0 (w.getD (n - 15) 0) +
               w.getD (n - 7) 0 + sha_s1 (w.getD (n - 2) 0)) % M32
    extendW (w ++ [nw]) k

/-- One SHA-256 compression round. -/
def shaRound (st : Nat × Nat × Nat × Nat × Nat × Nat × Nat × Nat) (wk : Nat × Nat) :
    Nat × Nat × Nat × Nat × Nat × Nat × Nat × Nat :=
  let (a, b, c, d, e, f, g, h) := st
  let (w, k) := wk
  let S1 := (rotr32 6 e) ^^^ (rotr32 11 e) ^^^ (rotr32 25 e)
  let ch := (e &&& f) ^^^ ((0xffffffff ^^^ e) &&& g)
  let t1 := (h + S1 + ch + k + w) % M32
  let S0 := (rotr32 2 a) ^^^ (rotr32 13 a) ^^^ (rotr32 22 a)
  let mj := (a &&& b) ^^^ (a &&& c) ^^^ (b &&& c)
  let t2 := (S0 + mj) % M32
  ((t1 + t2) % M32, a, b, c, (d + t1) % M32, e, f, g)

/-- Process one 16-word chunk against the running hash value. -/
def processChunk (hv : List Nat) (chunk : List Nat) : List Nat :=
  let ws := extendW chunk 48
  let init : Nat × Nat × Nat × Nat × Nat × Nat × Nat × Nat :=
    (hv.getD 0 0, hv.getD 1 0, hv.getD 2 0, hv.getD 3 0,
     hv.getD 4 0, hv.getD 5 0, hv.getD 6 0, hv.getD 7 0)
  let (a, b, c, d, e, f, g, h) := (ws.zip shaK).foldl shaRound init
  [(hv.getD 0 0 + a) % M32, (hv.getD 1 0 + b) % M32, (hv.getD 2 0 + c) % M32,
   (hv.getD 3 0 + d) % M32, (hv.getD 4 0 + e) % M32, (hv.getD 5 0 + f) % M32,
   (hv.getD 6 0 + g) % M32, (hv.getD 7 0 + h) % M32]

/-- SHA-256 of a byte list, as eight 32-bit words. -/
def sha256 (msg : List Nat) : List Nat :=
  (chunks16 (toWords (padMessage msg))).foldl processChunk shaH0

/-- UTF-8 encoding of one Unicode code point (Python `str.encode()`). -/
def utf8EncodeCp (c : Nat) : List Nat :=
  if c < 0x80 then [c]
  else if c < 0x800 then
    [0xc0 ||| (c >>> 6), 0x80 ||| (c &&& 0x3f)]
  else if c < 0x10000 then
    [0xe0 ||| (c >>> 12), 0x80 ||| ((c >>> 6) &&& 0x3f), 0x80 ||| (c &&& 0x3f)]
  else
    [0xf0 ||| (c >>> 18), 0x80 ||| ((c >>> 12) &&& 0x3f),
     0x80 ||| ((c >>> 6) &&& 0x3f), 0x80 ||| (c &&& 0x3f)]

/-- UTF-8 bytes of a string. -/
def utf8Bytes (s : String) : List Nat :=
  (s.data.map (fun c => utf8EncodeCp c.toNat)).flatten

/-- Lower-case hex digit. -/
def hexDigitChar (n : Nat) : Char :=
  if n < 10 then Char.ofNat (48 + n) else Char.ofNat (87 + n)

/-- A 32-bit word as eight hex characters. -/
def hexWord8 (w : Nat) : List Char :=
  (List.range 8).map (fun i => hexDigitChar ((w >>> (4 * (7 - i))) % 16))

/-- Python `hexdigest()` of a word-list digest. -/
def hexdigest (ws : List Nat) : String :=
  String.mk ((ws.map hexWord8).flatten)

/-- Function `generate_item_id` (lines 204-206):
`hashlib.sha256(url.encode()).hexdigest()[:16]`. -/
def generate_item_id (url : String) : String :=
  (hexdigest (sha256 (utf8Bytes url))).take 16

/-! ## Item repository operations -/

/-- Function `save_item` (lines 209-223): `INSERT OR IGNORE` keyed on the
`item_id` primary key; a fresh row gets status `'new'` and NULL
`action`/`category`/`filed_at`. -/
def save_item (s : Store) (item_id source_url source_type source_name
    title raw_text summary_json : String) (now : Nat) : Store :=
  if s.any (fun it => it.item_id == item_id) then s
  else s ++ [{ item_id := item_id, source_url := source_url,
               source_type := source_type, source_name := source_name,
               title := title, raw_text := raw_text,
               summary_json := summary_json, status := "new",
               action := none, category := none,
               created_at := now, filed_at := none }]

/-- Function `get_item_by_id` (lines 240-248). -/
def get_item_by_id (s : Store) (item_id : String) : Option Item :=
  s.find? (fun it => it.item_id == item_id)

/-- Python truthiness of an optional string (`if category:` is false for
both `None` and `""`). -/
def truthy : Option String → Bool
  | none => false
  | some s => !s.isEmpty

/-- The per-row effect of `update_item_status` (lines 255-263): if
`category` is truthy the row gets `status`, `action`, `category` and a
fresh `filed_at`; else if `action` is truthy it gets `status` and
`action`; else only `status`. -/
def apply_update (status : String) (action category : Option String)
    (now : Nat) (it : Item) : Item :=
  if truthy category then
    { it with status := status, action := action, category := category,
              filed_at := some now }
  else if truthy action then
    { it with status := status, action := action }
  else
    { it with status := status }

/-- Function `update_item_status` (lines 251-265): SQL `UPDATE ... WHERE
item_id=?`, i.e. `apply_update` on every matching row. -/
def update_item_status (s : Store) (item_id status : String)
    (action category : Option String) (now : Nat) : Store :=
  s.map fun it =>
    if it.item_id == item_id then apply_update status action category now it
    else it

/-- Trailing-window predicate of `get_weekly_items`:
`status='filed' AND filed_at >= datetime('now', '-7 days')`
(SQL comparison against NULL `filed_at` is false). -/
def weeklyPred (now : Nat) (it : Item) : Bool :=
  it.status == "filed" &&
    (match it.filed_at with
     | some t => decide (now - 7 * 86400 ≤ t)
     | none => false)

/-- Function `get_weekly_items` (lines 286-298): all filed items of the trailing
7 days, `ORDER BY filed_at DESC`, with no LIMIT clause. -/
def get_weekly_items (s : Store) (now : Nat) : List Item :=
  (s.filter (weeklyPred now)).mergeSort
    (fun a b => decide (b.filed_at.getD 0 ≤ a.filed_at.getD 0))

/-- From `send_weekly_report` (lines 744-757): the report prompt is built
from `items[:50]` only. -/
def weekly_report_items (s : Store) (now : Nat) : List Item :=
  (get_weekly_items s now).take 50

/-! ## Gemini summarization (`gemini_summarize`, `_fallback_summary`) -/

/-- A parsed summarizer JSON object, with each required or optional field
modelled as present (`some`) or absent (`none`). -/
structure ParsedSummary where
  headline : Option String
  tldr : Option String
  bullets : Option (List String)
  tags : Option (List String)
  category_suggestion : Option String
  why_it_matters : Option String
deriving DecidableEq

/-- Outcome of the Gemini call in `gemini_summarize`: either an exception
somewhere in the call / JSON parse (`failure`), or a parsed object. -/
inductive GeminiResponse where
  | failure
  | success (parsed : ParsedSummary)
deriving DecidableEq

/-- Function `_fallback_summary` (lines 358-367): deterministic fallback built
only from title and raw text. -/
def _fallback_summary (title text : String) : ParsedSummary :=
  { headline := some (if title.isEmpty then "Untitled" else title)
  , tldr := some (if text.isEmpty then "No content available."
                  else text.take 200 ++ "...")
  , bullets := some ["Full article available via link"]
  , tags := some ["unprocessed"]
  , category_suggestion := some "misc"
  , why_it_matters := some "" }

/-- Function `gemini_summarize` (lines 326-355): no API key, an exception, or a
parsed object missing any of `headline`/`tldr`/`bullets`/`tags` all yield
the fallback; otherwise the parsed object is returned as is. -/
def gemini_summarize (api_key_set : Bool) (title text : String)
    (resp : GeminiResponse) : ParsedSummary :=
  if !api_key_set then _fallback_summary title text
  else
    match resp with
    | .failure => _fallback_summary title text
    | .success parsed =>
      if parsed.headline.isNone || parsed.tldr.isNone ||
         parsed.bullets.isNone || parsed.tags.isNone then
        _fallback_summary title text
      else parsed

/-! ## Topics / Sheets fan-out -/

/-- Keys of the `TOPICS` table (lines 74-92). -/
def TOPICS_keys : List String :=
  ["development", "financing", "legal_ba", "distribution", "packaging",
   "talent", "intl_sales", "guilds", "ai_tech", "trending", "spotlight",
   "market", "instagram_intel", "all_intel", "daily_brief",
   "weekly_report", "misc"]

/-- The `label` column of the `TOPICS` table. -/
def TOPICS_labels : List (String × String) :=
  [("development", "Development"), ("financing", "Financing"),
   ("legal_ba", "Legal/BA"), ("distribution", "Distribution"),
   ("packaging", "Packaging"), ("talent", "Talent"),
   ("intl_sales", "Intl Sales"), ("guilds", "Guilds"),
   ("ai_tech", "AI/Tech"), ("trending", "Trending"),
   ("spotlight", "Spotlight"), ("market", "Market"),
   ("instagram_intel", "Instagram Intel"), ("all_intel", "All Intel"),
   ("daily_brief", "Daily Brief"), ("weekly_report", "Weekly Intel Report"),
   ("misc", "Misc")]

/-- Lookup `TOPICS.get(category).get("label", category)` as used in the
filing acknowledgment (lines 1163, 1188). -/
def TOPICS_label (category : String) : String :=
  ((TOPICS_labels.find? (fun p => p.1 == category)).map (fun p => p.2)).getD category

/-- Table `FILING_CATEGORIES` (lines 95-99): the buckets offered by the
category picker. -/
def FILING_CATEGORIES : List String :=
  ["development", "financing", "legal_ba", "distribution", "packaging",
   "talent", "intl_sales", "guilds", "ai_tech", "trending", "spotlight",
   "market", "misc"]

/-- Table `NO_SHEETS_CATEGORIES` (line 108): buckets that never write to
Google Sheets. -/
def NO_SHEETS_CATEGORIES : List String :=
  ["misc", "instagram_intel", "all_intel", "daily_brief", "weekly_report"]

/-- External configuration and transport oracles: group/topic/sheet
configuration plus per-destination success of the underlying network
calls (an exception inside `bot.send_message` or the Sheets append is a
`false` oracle value; both are caught and logged by the source). -/
structure Env where
  library_group_chat_id : Int
  topic_id : String → Nat
  send_ok : String → Bool
  sheet_id : String
  sa_file_exists : Bool
  sheets_api_ok : Bool

/-- Function `post_to_topic` (lines 604-632): unset group or unconfigured topic is
a trivially successful no-op; a transport exception is caught and
returns `False`. -/
def post_to_topic (env : Env) (category : String) : Bool :=
  if env.library_group_chat_id == 0 then true
  else if !(TOPICS_keys.contains category) || env.topic_id category == 0 then true
  else env.send_ok category

/-- Function `append_to_sheets` (lines 542-596): no sheet id or no
service-account file returns `True` (nothing to do); otherwise the
result of the API call, with exceptions mapped to `False`. -/
def append_to_sheets (env : Env) : Bool :=
  if env.sheet_id.isEmpty then true
  else if !env.sa_file_exists then true
  else env.sheets_api_ok

/-! ## The button handler (triage state machine + fan-out) -/

/-- A decoded callback-button event, the five `callback_data` prefixes
handled by `button_handler` (lines 1082, 1096, 1110, 1119, 1142). -/
inductive Trigger where
  | yes (item_id : String)
  | archive (item_id : String)
  | no (item_id : String)
  | cancel (item_id : String)
  | file (category : String) (item_id : String)
deriving DecidableEq

/-- One attempted fan-out delivery. -/
inductive Delivery where
  | topicPost (category : String) (item_id : String)
  | sheetsAppend (item_id : String)
deriving DecidableEq

/-- Result of one `button_handler` invocation: the updated store, the
text the inbox card is edited to, the ordered fan-out attempts with
their outcomes, and the `sheets_ok` flag driving the acknowledgment. -/
structure HandlerResult where
  store : Store
  reply : String
  deliveries : List Delivery
  outcomes : List (Delivery × Bool)
  sheets_ok : Bool

/-- Dispatch one delivery attempt to its transport. -/
def deliver_result (env : Env) : Delivery → Bool
  | .topicPost c _ => post_to_topic env c
  | .sheetsAppend _ => append_to_sheets env

/-- The acknowledgment text of the `file_` branch (lines 1187-1193). -/
def ack_text (ok : Bool) (label : String) : String :=
  (if ok then "✅" else "⚠️") ++ " Filed to " ++ label ++
    (if ok then "" else "\n⚠️ Sheets write failed — item is saved locally.")

/-- The synchronous read-check-update segment of the `file_` branch
(lines 1149-1158): `get_item_by_id`; bail out if missing or already
`filed`; otherwise commit `status='filed'` with
`action=item.get("action", "yes")` (the stored value, possibly NULL,
since the key is always present in the row dict) and the chosen
category.  No `await` separates these statements, so the whole segment
runs without interleaving under the cooperative scheduler. -/
def file_check_and_set (s : Store) (category item_id : String) (now : Nat) :
    Store × Bool :=
  match get_item_by_id s item_id with
  | none => (s, false)
  | some it =>
    if it.status == "filed" then (s, false)
    else (update_item_status s item_id "filed" it.action (some category) now, true)

/-- Function `button_handler` (lines 1074-1193), one trigger handled to
completion.  `triage_yes`/`triage_archive` guard on a missing or filed
item; `triage_no` updates unconditionally; `triage_cancel` guards only
on existence; `file_` guards on missing/filed and then commits, fans out
to the chosen topic, the `all_intel` mirror, conditionally the
`instagram_intel` mirror, and (for non-excluded categories) Sheets. -/
def button_handler (env : Env) (now : Nat) (s : Store) : Trigger → HandlerResult
  | .yes item_id =>
    match get_item_by_id s item_id with
    | none => ⟨s, "Already processed.", [], [], true⟩
    | some it =>
      if it.status == "filed" then ⟨s, "Already processed.", [], [], true⟩
      else ⟨update_item_status s item_id "picking_category" (some "yes") none now,
            "🎯 Select a category:", [], [], true⟩
  | .archive item_id =>
    match get_item_by_id s item_id with
    | none => ⟨s, "Already processed.", [], [], true⟩
    | some it =>
      if it.status == "filed" then ⟨s, "Already processed.", [], [], true⟩
      else ⟨update_item_status s item_id "picking_category" (some "archive") none now,
            "📁 Select archive category:", [], [], true⟩
  | .no item_id =>
    ⟨update_item_status s item_id "dismissed" (some "no") none now,
     "❌ Dismissed.", [], [], true⟩
  | .cancel item_id =>
    match get_item_by_id s item_id with
    | none => ⟨s, "", [], [], true⟩
    | some _ =>
      ⟨update_item_status s item_id "new" none none now,
       "intel card with triage keyboard", [], [], true⟩
  | .file category item_id =>
    match get_item_by_id s item_id with
    | none => ⟨s, "Item not found.", [], [], true⟩
    | some it =>
      if it.status == "filed" then ⟨s, "Already filed.", [], [], true⟩
      else
        let s2 := update_item_status s item_id "filed" it.action (some category) now
        let it2 := (get_item_by_id s2 item_id).getD it
        let deliveries :=
          [Delivery.topicPost category item_id, Delivery.topicPost "all_intel" item_id]
          ++ (if it2.source_type == "instagram"
              then [Delivery.topicPost "instagram_intel" item_id] else [])
          ++ (if NO_SHEETS_CATEGORIES.contains category
              then [] else [Delivery.sheetsAppend item_id])
        let ok := if NO_SHEETS_CATEGORIES.contains category then true
                  else append_to_sheets env
        ⟨s2, ack_text ok (TOPICS_label category), deliveries,
         deliveries.map (fun d => (d, deliver_result env d)), ok⟩

/-! ## Helper lemmas about the repository operations -/

theorem apply_update_item_id (status : String) (action category : Option String)
    (now : Nat) (it : Item) :
    (apply_update status action category now it).item_id = it.item_id := by
  unfold apply_update; split_ifs <;> rfl

theorem apply_update_source_type (status : String) (action category : Option String)
    (now : Nat) (it : Item) :
    (apply_update status action category now it).source_type = it.source_type := by
  unfold apply_update; split_ifs <;> rfl

theorem apply_update_status (status : String) (action category : Option String)
    (now : Nat) (it : Item) :
    (apply_update status action category now it).status = status := by
  unfold apply_update; split_ifs <;> rfl

/-- Looking up the updated id after `update_item_status` sees exactly the
updated row. -/
theorem get_item_by_id_update (s : Store) (id status : String)
    (action category : Option String) (now : Nat) :
    get_item_by_id (update_item_status s id status action category now) id
      = (get_item_by_id s id).map (apply_update status action category now) := by
  induction s with
  | nil => rfl
  | cons hd tl ih =>
    by_cases h : (hd.item_id == id) = true
    · have h' : hd.item_id = id := eq_of_beq h
      simp [update_item_status, get_item_by_id, List.find?_cons, h',
            apply_update_item_id]
    · simp only [update_item_status, get_item_by_id, List.map_cons] at ih ⊢
      rw [if_neg (by simp [h])]
      rw [List.find?_cons_of_neg _ (by simp [h]), List.find?_cons_of_neg _ (by simp [h])]
      exact ih

/-- An `UPDATE` on an id with no matching row is a no-op. -/
theorem update_item_status_not_found (s : Store) (id status : String)
    (action category : Option String) (now : Nat)
    (h : get_item_by_id s id = none) :
    update_item_status s id status action category now = s := by
  have hall := List.find?_eq_none.mp h
  unfold update_item_status
  conv_rhs => rw [← List.map_id s]
  apply List.map_congr_left
  intro x hx
  simp [hall x hx]

/-- The delivery list of a successful `file_` branch. -/
def fileDeliveries (category item_id : String) (it : Item) : List Delivery :=
  [Delivery.topicPost category item_id, Delivery.topicPost "all_intel" item_id]
  ++ (if it.source_type == "instagram"
      then [Delivery.topicPost "instagram_intel" item_id] else [])
  ++ (if NO_SHEETS_CATEGORIES.contains category
      then [] else [Delivery.sheetsAppend item_id])

/-- Unfolding of a successful `file_` branch of `button_handler`. -/
theorem file_success_eq (env : Env) (now : Nat) (s : Store) (c id : String)
    (it : Item) (hget : get_item_by_id s id = some it)
    (hnf : (it.status == "filed") = false) :
    button_handler env now s (Trigger.file c id) =
      { store := update_item_status s id "filed" it.action (some c) now
      , reply := ack_text (if NO_SHEETS_CATEGORIES.contains c then true
                           else append_to_sheets env) (TOPICS_label c)
      , deliveries := fileDeliveries c id it
      , outcomes := (fileDeliveries c id it).map (fun d => (d, deliver_result env d))
      , sheets_ok := if NO_SHEETS_CATEGORIES.contains c then true
                     else append_to_sheets env } := by
  simp only [button_handler, hget, hnf, Bool.false_eq_true, if_false,
             get_item_by_id_update, Option.map_some, Option.getD_some]
  simp [fileDeliveries, apply_update_source_type]

/-! ## Fixtures used by witnesses and counterexamples -/

/-- An environment with nothing configured. -/
def env0 : Env :=
  { library_group_chat_id := 0, topic_id := fun _ => 0,
    send_ok := fun _ => true, sheet_id := "", sa_file_exists := false,
    sheets_api_ok := true }

/-- A fully configured environment whose Sheets append fails. -/
def envSheetsFail : Env :=
  { library_group_chat_id := -100, topic_id := fun _ => 7,
    send_ok := fun _ => true, sheet_id := "sheet-1", sa_file_exists := true,
    sheets_api_ok := false }

/-- A concrete already-filed item. -/
def itFiled : Item :=
  { item_id := "i1", source_url := "https://example.com/a",
    source_type := "rss", source_name := "Deadline", title := "t",
    raw_text := "r", summary_json := "sj", status := "filed",
    action := some "yes", category := some "financing",
    created_at := 1, filed_at := some 2 }

/-- A concrete pending (`'new'`) item. -/
def itNew : Item :=
  { item_id := "i2", source_url := "https://example.com/b",
    source_type := "instagram", source_name := "Instagram", title := "t2",
    raw_text := "r2", summary_json := "sj2", status := "new",
    action := none, category := none, created_at := 3, filed_at := none }

/-! ## C10 — first-writer-wins re-ingestion -/

/-- C10: re-running `save_item` for an `item_id` that is already stored is
a complete no-op (`INSERT OR IGNORE` on the primary key): the store — and
in particular every field of the existing record — is left unchanged,
whatever new field values the second call carries. -/
theorem save_item_first_writer_wins (s : Store)
    (item_id source_url source_type source_name title raw_text summary_json : String)
    (now : Nat) (h : s.any (fun it => it.item_id == item_id) = true) :
    save_item s item_id source_url source_type source_name title raw_text
        summary_json now = s ∧
    get_item_by_id (save_item s item_id source_url source_type source_name
        title raw_text summary_json now) item_id = get_item_by_id s item_id := by
  refine ⟨by simp [save_item, h], ?_⟩
  simp [save_item, h]

/-- Witness for C10 at a concrete store and conflicting second write. -/
theorem save_item_first_writer_wins_witness :
    save_item [itFiled] "i1" "https://other.example" "instagram" "IG" "tX"
        "rX" "sX" 99 = [itFiled] ∧
    get_item_by_id (save_item [itFiled] "i1" "https://other.example"
        "instagram" "IG" "tX" "rX" "sX" 99) "i1" = get_item_by_id [itFiled] "i1" :=
  save_item_first_writer_wins [itFiled] "i1" "https://other.example"
    "instagram" "IG" "tX" "rX" "sX" 99 (by decide)

/-! ## C3 — idempotent ingestion with deterministic id derivation -/

/-- Double `save_item` under a generic fresh id: the second call is a
no-op and the store holds one record under the id. -/
theorem save_item_twice_aux (s : Store) (id url : String)
    (st1 sn1 t1 rt1 sj1 st2 sn2 t2 rt2 sj2 : String) (now1 now2 : Nat)
    (h : s.any (fun it => it.item_id == id) = false) :
    save_item (save_item s id url st1 sn1 t1 rt1 sj1 now1)
        id url st2 sn2 t2 rt2 sj2 now2
      = save_item s id url st1 sn1 t1 rt1 sj1 now1 ∧
    ((save_item s id url st1 sn1 t1 rt1 sj1 now1).filter
        (fun it => it.item_id == id)).length = 1 := by
  have hnil : s.filter (fun it => it.item_id == id) = [] := by
    rw [List.filter_eq_nil_iff]
    intro a ha
    have := (List.any_eq_false).mp h a ha
    simpa using this
  constructor
  · simp [save_item, h, List.any_append]
  · simp [save_item, h, List.filter_append, hnil]

/-- C3: ingesting the same locator twice stores exactly one item.  The id
is derived deterministically from the locator by `generate_item_id` (the
same pure function of the url on both calls), the second `save_item` is a
silent no-op, and the store holds exactly one record under that id. -/
theorem ingest_idempotent (s : Store) (url : String)
    (st1 sn1 t1 rt1 sj1 st2 sn2 t2 rt2 sj2 : String) (now1 now2 : Nat)
    (h : s.any (fun it => it.item_id == generate_item_id url) = false) :
    generate_item_id url = generate_item_id url ∧
    save_item (save_item s (generate_item_id url) url st1 sn1 t1 rt1 sj1 now1)
        (generate_item_id url) url st2 sn2 t2 rt2 sj2 now2
      = save_item s (generate_item_id url) url st1 sn1 t1 rt1 sj1 now1 ∧
    ((save_item s (generate_item_id url) url st1 sn1 t1 rt1 sj1 now1).filter
        (fun it => it.item_id == generate_item_id url)).length = 1 := by
  have haux := save_item_twice_aux s (generate_item_id url) url
    st1 sn1 t1 rt1 sj1 st2 sn2 t2 rt2 sj2 now1 now2 h
  exact ⟨rfl, haux.1, haux.2⟩

/-- Witness for C3: double ingestion of a concrete feed url into the
empty store. -/
theorem ingest_idempotent_witness :
    generate_item_id "https://deadline.com/feed/" = generate_item_id "https://deadline.com/feed/" ∧
    save_item (save_item [] (generate_item_id "https://deadline.com/feed/")
        "https://deadline.com/feed/" "rss" "Deadline" "T" "R" "S" 1)
        (generate_item_id "https://deadline.com/feed/")
        "https://deadline.com/feed/" "rss" "Deadline" "T2" "R2" "S2" 2
      = save_item [] (generate_item_id "https://deadline.com/feed/")
        "https://deadline.com/feed/" "rss" "Deadline" "T" "R" "S" 1 ∧
    ((save_item [] (generate_item_id "https://deadline.com/feed/")
        "https://deadline.com/feed/" "rss" "Deadline" "T" "R" "S" 1).filter
        (fun it => it.item_id == generate_item_id "https://deadline.com/feed/")).length = 1 :=
  ingest_idempotent [] "https://deadline.com/feed/" "rss" "Deadline" "T" "R" "S"
    "rss" "Deadline" "T2" "R2" "S2" 1 2 rfl

/-! ## C4 — deterministic fallback summary -/

/-- C4: when the summarizer raises, or returns an object missing `tags`
(or any of the other required fields `headline`/`tldr`/`bullets`), the
stored summary is exactly `_fallback_summary`, whose `tags` is
`["unprocessed"]` and whose `headline` is the original title, or
`"Untitled"` when the title is empty. -/
theorem summarizer_fallback_correct (api_key_set : Bool) (title text : String)
    (resp : GeminiResponse)
    (h : resp = GeminiResponse.failure ∨
         ∃ p, resp = GeminiResponse.success p ∧
           (p.headline.isNone ∨ p.tldr.isNone ∨ p.bullets.isNone ∨ p.tags.isNone)) :
    gemini_summarize api_key_set title text resp = _fallback_summary title text ∧
    (gemini_summarize api_key_set title text resp).tags = some ["unprocessed"] ∧
    (gemini_summarize api_key_set title text resp).headline =
      some (if title.isEmpty then "Untitled" else title) := by
  have hfb : gemini_summarize api_key_set title text resp = _fallback_summary title text := by
    cases api_key_set with
    | false => simp [gemini_summarize]
    | true =>
      rcases h with hfail | ⟨p, hp, hmiss⟩
      · simp [gemini_summarize, hfail]
      · subst hp
        have hcond : (p.headline.isNone || p.tldr.isNone ||
            p.bullets.isNone || p.tags.isNone) = true := by
          rcases hmiss with h1 | h1 | h1 | h1 <;> simp [h1]
        simp [gemini_summarize, hcond]
  refine ⟨hfb, ?_, ?_⟩ <;> rw [hfb] <;> simp [_fallback_summary]

/-- Witness for C4: a raising summarizer on a concrete title. -/
theorem summarizer_fallback_correct_witness :
    gemini_summarize true "Studio X closes deal" "" GeminiResponse.failure
      = _fallback_summary "Studio X closes deal" "" ∧
    (gemini_summarize true "Studio X closes deal" "" GeminiResponse.failure).tags
      = some ["unprocessed"] ∧
    (gemini_summarize true "Studio X closes deal" "" GeminiResponse.failure).headline
      = some (if ("Studio X closes deal").isEmpty then "Untitled"
              else "Studio X closes deal") :=
  summarizer_fallback_correct true "Studio X closes deal" ""
    GeminiResponse.failure (Or.inl rfl)

/-! ## C7 — unconfigured ledger is trivially successful -/

/-- C7: with no sheet id, or no service-account credentials file, the
ledger write returns success (nothing to do), so a filing acknowledgment
through `button_handler` is never degraded by it. -/
theorem sheets_unconfigured_trivial_success (env : Env)
    (h : env.sheet_id.isEmpty = true ∨ env.sa_file_exists = false) :
    append_to_sheets env = true ∧
    ∀ (now : Nat) (s : Store) (c id : String),
      (button_handler env now s (Trigger.file c id)).sheets_ok = true := by
  have happ : append_to_sheets env = true := by
    rcases h with h1 | h1 <;> simp [append_to_sheets, h1]
  refine ⟨happ, ?_⟩
  intro now s c id
  cases hget : get_item_by_id s id with
  | none => simp [button_handler, hget]
  | some it =>
    by_cases hst : it.status = "filed"
    · simp [button_handler, hget, hst]
    · by_cases hc : c ∈ NO_SHEETS_CATEGORIES <;>
        simp [button_handler, hget, hst, hc, happ]

/-- Witness for C7: an empty sheet id, a concrete filing. -/
theorem sheets_unconfigured_trivial_success_witness :
    append_to_sheets env0 = true ∧
    (button_handler env0 4 [itNew] (Trigger.file "financing" "i2")).sheets_ok = true :=
  ⟨(sheets_unconfigured_trivial_success env0 (Or.inl rfl)).1,
   (sheets_unconfigured_trivial_success env0 (Or.inl rfl)).2 4 [itNew] "financing" "i2"⟩

/-! ## C2 — stale-trigger behaviour -/

/-- C2 is false as stated: a reject (`triage_no`) trigger on an
already-filed item is not a no-op — `button_handler` runs
`update_item_status(item_id, "dismissed", action="no")` with no status
guard (lines 1110-1116), so the stored record of the filed item `i1`
changes to status `dismissed`, action `no`. -/
theorem stale_trigger_noop_counterexample :
    (button_handler env0 5 [itFiled] (Trigger.no "i1")).store ≠ [itFiled] ∧
    (get_item_by_id (button_handler env0 5 [itFiled] (Trigger.no "i1")).store "i1").map
      (fun it => (it.status, it.action)) = some ("dismissed", some "no") := by
  constructor
  · decide
  · decide

/-- C2 amended: only `triage_yes`, `triage_archive` and `file_` guard
against an already-filed item (safe no-op with an informational reply);
all five triggers leave the store unchanged when the item does not exist;
`triage_no` and `triage_cancel` apply their update regardless of the
current status. -/
theorem stale_trigger_guards_amended (env : Env) (now : Nat) (s1 s2 : Store)
    (id c : String) (it : Item)
    (h1 : get_item_by_id s1 id = none)
    (h2 : get_item_by_id s2 id = some it)
    (h3 : it.status = "filed") :
    (button_handler env now s1 (Trigger.yes id)).store = s1 ∧
    (button_handler env now s1 (Trigger.yes id)).reply = "Already processed." ∧
    (button_handler env now s1 (Trigger.archive id)).store = s1 ∧
    (button_handler env now s1 (Trigger.archive id)).reply = "Already processed." ∧
    (button_handler env now s1 (Trigger.no id)).store = s1 ∧
    (button_handler env now s1 (Trigger.cancel id)).store = s1 ∧
    (button_handler env now s1 (Trigger.file c id)).store = s1 ∧
    (button_handler env now s1 (Trigger.file c id)).reply = "Item not found." ∧
    (button_handler env now s2 (Trigger.yes id)).store = s2 ∧
    (button_handler env now s2 (Trigger.yes id)).reply = "Already processed." ∧
    (button_handler env now s2 (Trigger.archive id)).store = s2 ∧
    (button_handler env now s2 (Trigger.archive id)).reply = "Already processed." ∧
    (button_handler env now s2 (Trigger.file c id)).store = s2 ∧
    (button_handler env now s2 (Trigger.file c id)).reply = "Already filed." := by
  refine ⟨?_, ?_, ?_, ?_, ?_, ?_, ?_, ?_, ?_, ?_, ?_, ?_, ?_, ?_⟩ <;>
    simp [button_handler, h1, h2, h3, update_item_status_not_found]

/-- Witness for C2's amended claim: missing id on the empty store, and a
`file_` press on the concrete filed item. -/
theorem stale_trigger_guards_amended_witness :
    (button_handler env0 7 [] (Trigger.yes "i1")).store = [] ∧
    (button_handler env0 7 [itFiled] (Trigger.file "financing" "i1")).store = [itFiled] ∧
    (button_handler env0 7 [itFiled] (Trigger.file "financing" "i1")).reply = "Already filed." := by
  obtain ⟨a1, a2, a3, a4, a5, a6, a7, a8, a9, a10, a11, a12, a13, a14⟩ :=
    stale_trigger_guards_amended env0 7 [] [itFiled] "i1" "financing" itFiled
      rfl (by decide) rfl
  exact ⟨a1, a13, a14⟩

/-! ## C5 — fan-out order and conditions -/

/-- Filing categories never name the mirror topics. -/
theorem filing_cats_not_mirror :
    ∀ c ∈ FILING_CATEGORIES, c ≠ "instagram_intel" ∧ c ≠ "all_intel" := by
  decide

/-- C5: a successful `chooseBucket` files and fans out, in order, to the
chosen bucket, the unconditional `all_intel` mirror, the
`instagram_intel` mirror exactly when the item's source kind is
`instagram`, and the Sheets ledger exactly when the chosen bucket is not
in `NO_SHEETS_CATEGORIES` (`{misc, instagram_intel, all_intel,
daily_brief, weekly_report}`). -/
theorem fanout_order_and_conditions (env : Env) (now : Nat) (s : Store)
    (c id : String) (it : Item)
    (hget : get_item_by_id s id = some it)
    (hnf : it.status ≠ "filed")
    (hc : c ∈ FILING_CATEGORIES) :
    (button_handler env now s (Trigger.file c id)).deliveries =
      [Delivery.topicPost c id, Delivery.topicPost "all_intel" id]
      ++ (if it.source_type = "instagram"
          then [Delivery.topicPost "instagram_intel" id] else [])
      ++ (if c ∈ NO_SHEETS_CATEGORIES then [] else [Delivery.sheetsAppend id]) ∧
    (Delivery.topicPost "instagram_intel" id
        ∈ (button_handler env now s (Trigger.file c id)).deliveries
      ↔ it.source_type = "instagram") ∧
    (Delivery.sheetsAppend id
        ∈ (button_handler env now s (Trigger.file c id)).deliveries
      ↔ c ∉ NO_SHEETS_CATEGORIES) := by
  have hnf' : (it.status == "filed") = false := by simp [hnf]
  obtain ⟨hne1, hne2⟩ := filing_cats_not_mirror c hc
  rw [file_success_eq env now s c id it hget hnf']
  refine ⟨?_, ?_, ?_⟩
  · simp [fileDeliveries]
  · by_cases hinsta : it.source_type = "instagram" <;>
      by_cases hsheets : c ∈ NO_SHEETS_CATEGORIES <;>
      simp [fileDeliveries, hinsta, hsheets, hne1, hne2, Ne.symm hne1, Ne.symm hne2]
  · by_cases hsheets : c ∈ NO_SHEETS_CATEGORIES <;>
      by_cases hinsta : it.source_type = "instagram" <;>
      simp [fileDeliveries, hinsta, hsheets]

/-- Witness for C5: filing the concrete instagram-sourced pending item
`i2` into `financing`. -/
theorem fanout_order_and_conditions_witness :
    (button_handler env0 11 [itNew] (Trigger.file "financing" "i2")).deliveries =
      [Delivery.topicPost "financing" "i2", Delivery.topicPost "all_intel" "i2"]
      ++ (if itNew.source_type = "instagram"
          then [Delivery.topicPost "instagram_intel" "i2"] else [])
      ++ (if "financing" ∈ NO_SHEETS_CATEGORIES then [] else [Delivery.sheetsAppend "i2"]) ∧
    (Delivery.topicPost "instagram_intel" "i2"
        ∈ (button_handler env0 11 [itNew] (Trigger.file "financing" "i2")).deliveries
      ↔ itNew.source_type = "instagram") ∧
    (Delivery.sheetsAppend "i2"
        ∈ (button_handler env0 11 [itNew] (Trigger.file "financing" "i2")).deliveries
      ↔ "financing" ∉ NO_SHEETS_CATEGORIES) :=
  fanout_order_and_conditions env0 11 [itNew] "financing" "i2" itNew
    (by decide) (by decide) (by decide)

/-! ## C6 — fan-out isolation and degraded acknowledgment -/

/-- C6: when the ledger write fails for a non-excluded bucket, the item's
status is still `filed` (the repository commit precedes fan-out and is
never reverted), the bucket and broad-mirror deliveries are still
attempted, and the acknowledgment is flagged degraded; topic-delivery
failures (`send_ok`) change neither the store, the acknowledgment, nor
the delivery list; and across all environments the acknowledgment is
degraded exactly when the Sheets write specifically failed. -/
theorem fanout_isolation_ack (env : Env) (now : Nat) (s : Store)
    (c id : String) (it : Item)
    (hget : get_item_by_id s id = some it)
    (hnf : it.status ≠ "filed")
    (hc : c ∉ NO_SHEETS_CATEGORIES)
    (hfail : append_to_sheets env = false) :
    (get_item_by_id (button_handler env now s (Trigger.file c id)).store id).map
        Item.status = some "filed" ∧
    Delivery.topicPost c id ∈ (button_handler env now s (Trigger.file c id)).deliveries ∧
    Delivery.topicPost "all_intel" id
      ∈ (button_handler env now s (Trigger.file c id)).deliveries ∧
    (button_handler env now s (Trigger.file c id)).sheets_ok = false ∧
    (button_handler env now s (Trigger.file c id)).reply
      = ack_text false (TOPICS_label c) ∧
    (∀ f : String → Bool,
      (button_handler { env with send_ok := f } now s (Trigger.file c id)).store
        = (button_handler env now s (Trigger.file c id)).store ∧
      (button_handler { env with send_ok := f } now s (Trigger.file c id)).sheets_ok
        = (button_handler env now s (Trigger.file c id)).sheets_ok ∧
      (button_handler { env with send_ok := f } now s (Trigger.file c id)).reply
        = (button_handler env now s (Trigger.file c id)).reply ∧
      (button_handler { env with send_ok := f } now s (Trigger.file c id)).deliveries
        = (button_handler env now s (Trigger.file c id)).deliveries) ∧
    (∀ env2 : Env,
      ((button_handler env2 now s (Trigger.file c id)).sheets_ok = false
        ↔ append_to_sheets env2 = false)) := by
  have hnf' : (it.status == "filed") = false := by simp [hnf]
  have e1 := file_success_eq env now s c id it hget hnf'
  refine ⟨?_, ?_, ?_, ?_, ?_, ?_, ?_⟩
  · rw [e1]
    simp [get_item_by_id_update, apply_update_status]
    exact ⟨it, hget⟩
  · rw [e1]; simp [fileDeliveries]
  · rw [e1]; simp [fileDeliveries]
  · rw [e1]; simp [hc, hfail]
  · rw [e1]; simp [hc, hfail]
  · intro f
    have e2 := file_success_eq { env with send_ok := f } now s c id it hget hnf'
    rw [e1, e2]
    have happ : append_to_sheets { env with send_ok := f } = append_to_sheets env := rfl
    exact ⟨rfl, by simp [happ], by simp [happ], rfl⟩
  · intro env2
    have e3 := file_success_eq env2 now s c id it hget hnf'
    rw [e3]
    simp [hc]

/-- Witness for C6: the concrete pending item filed to `financing` under
the failing-Sheets environment. -/
theorem fanout_isolation_ack_witness :
    (get_item_by_id (button_handler envSheetsFail 9 [itNew]
        (Trigger.file "financing" "i2")).store "i2").map Item.status = some "filed" ∧
    Delivery.topicPost "financing" "i2"
      ∈ (button_handler envSheetsFail 9 [itNew] (Trigger.file "financing" "i2")).deliveries ∧
    Delivery.topicPost "all_intel" "i2"
      ∈ (button_handler envSheetsFail 9 [itNew] (Trigger.file "financing" "i2")).deliveries ∧
    (button_handler envSheetsFail 9 [itNew] (Trigger.file "financing" "i2")).sheets_ok = false := by
  obtain ⟨a1, a2, a3, a4, a5, a6, a7⟩ :=
    fanout_isolation_ack envSheetsFail 9 [itNew] "financing" "i2" itNew
      (by decide) (by decide) (by decide) (by decide)
  exact ⟨a1, a2, a3, a4⟩

/-! ## C8 — the weekly filed-items query -/

/-- A filed item `i` seconds before the reference instant `1000000`. -/
def mkFiledItem (i : Nat) : Item :=
  { item_id := toString i, source_url := toString i, source_type := "rss",
    source_name := "D", title := "", raw_text := "", summary_json := "",
    status := "filed", action := some "yes", category := some "financing",
    created_at := 0, filed_at := some (1000000 - i) }

/-- Fifty-one filed items, all within the trailing week. -/
def bigWeekStore : Store := (List.range 51).map mkFiledItem

/-- C8 is false as stated: `get_weekly_items` has no LIMIT clause, so a
store with 51 filed items inside the trailing 7 days returns all 51 —
the query result is not capped at 50. -/
theorem weekly_query_uncapped_counterexample :
    ¬ ((get_weekly_items bigWeekStore 1000000).length ≤ 50) := by
  simp only [get_weekly_items, List.length_mergeSort]
  decide

/-- C8 amended: the query returns exactly the items with status `filed`
and `filed_at` inside the trailing 7 days, ordered newest-first by
`filed_at`, with no cap of its own; the fixed 50-item bound is applied
downstream by `send_weekly_report`, which builds the report from
`items[:50]`. -/
theorem weekly_query_amended (s : Store) (now : Nat) :
    (∀ it : Item, it ∈ get_weekly_items s now ↔
      (it ∈ s ∧ it.status = "filed" ∧
       ∃ t, it.filed_at = some t ∧ now - 7 * 86400 ≤ t)) ∧
    (get_weekly_items s now).Pairwise
      (fun a b => b.filed_at.getD 0 ≤ a.filed_at.getD 0) ∧
    (get_weekly_items s now).length = (s.filter (weeklyPred now)).length ∧
    weekly_report_items s now = (get_weekly_items s now).take 50 ∧
    (weekly_report_items s now).length ≤ 50 := by
  have hpred : ∀ it : Item, weeklyPred now it = true ↔
      (it.status = "filed" ∧ ∃ t, it.filed_at = some t ∧ now - 7 * 86400 ≤ t) := by
    intro it
    unfold weeklyPred
    cases hft : it.filed_at with
    | none => simp [hft]
    | some t => simp [hft]
  refine ⟨?_, ?_, ?_, rfl, ?_⟩
  · intro it
    simp only [get_weekly_items, List.mem_mergeSort, List.mem_filter]
    rw [hpred it]
  · have hs : (get_weekly_items s now).Pairwise
        (fun a b => decide (b.filed_at.getD 0 ≤ a.filed_at.getD 0) = true) := by
      unfold get_weekly_items
      exact List.sorted_mergeSort
        (by intro a b c hab hbc; simp only [decide_eq_true_eq] at *; omega)
        (by intro a b
            by_cases hab : b.filed_at.getD 0 ≤ a.filed_at.getD 0
            · simp [hab]
            · simp only [Bool.or_eq_true, decide_eq_true_eq]
              omega)
        (s.filter (weeklyPred now))
    exact hs.imp (fun h => by simpa using h)
  · simp [get_weekly_items]
  · have hlen : (weekly_report_items s now).length
        = min 50 (get_weekly_items s now).length := by
      simp [weekly_report_items]
    omega

/-! ## C9 — state invariants over reachable stores -/

/-- Stores reachable from the empty database by ingestion (`save_item` as
invoked from `poll_rss` / `process_url`) and triage triggers. -/
inductive Reachable : Store → Prop where
  | init : Reachable []
  | ingest (s : Store)
      (item_id source_url source_type source_name title raw_text summary_json : String)
      (now : Nat) : Reachable s →
      Reachable (save_item s item_id source_url source_type source_name
        title raw_text summary_json now)
  | trigger (s : Store) (env : Env) (now : Nat) (t : Trigger) :
      Reachable s → Reachable (button_handler env now s t).store

/-- Function `update_item_status` preserves the both-null-or-both-set invariant of
`category`/`filed_at`: the only branch touching either sets both. -/
theorem bf_inv_update (s : Store) (id status : String)
    (action category : Option String) (now : Nat)
    (hinv : ∀ it ∈ s, (it.category = none ↔ it.filed_at = none)) :
    ∀ it ∈ update_item_status s id status action category now,
      (it.category = none ↔ it.filed_at = none) := by
  intro it2 hmem
  rw [update_item_status, List.mem_map] at hmem
  obtain ⟨a, ha, rfl⟩ := hmem
  by_cases h : (a.item_id == id) = true
  · simp only [h, if_true]
    unfold apply_update
    split_ifs with h1 h2
    · cases hcat : category with
      | none => rw [hcat] at h1; simp [truthy] at h1
      | some cstr => simp
    · simpa using hinv a ha
    · simpa using hinv a ha
  · simp only [h, Bool.false_eq_true, if_false]
    exact hinv a ha

/-- Every `button_handler` branch leaves the store unchanged or runs one
`update_item_status` with the trigger's arguments. -/
theorem handler_store_cases (env : Env) (now : Nat) (s : Store) (t : Trigger) :
    (button_handler env now s t).store = s ∨
    ∃ id status action category,
      (button_handler env now s t).store
        = update_item_status s id status action category now := by
  cases t with
  | yes id =>
    cases h : get_item_by_id s id with
    | none => left; simp [button_handler, h]
    | some it =>
      by_cases hs : it.status = "filed"
      · left; simp [button_handler, h, hs]
      · right
        exact ⟨id, "picking_category", some "yes", none, by simp [button_handler, h, hs]⟩
  | archive id =>
    cases h : get_item_by_id s id with
    | none => left; simp [button_handler, h]
    | some it =>
      by_cases hs : it.status = "filed"
      · left; simp [button_handler, h, hs]
      · right
        exact ⟨id, "picking_category", some "archive", none, by simp [button_handler, h, hs]⟩
  | no id =>
    right; exact ⟨id, "dismissed", some "no", none, by simp [button_handler]⟩
  | cancel id =>
    cases h : get_item_by_id s id with
    | none => left; simp [button_handler, h]
    | some it =>
      right; exact ⟨id, "new", none, none, by simp [button_handler, h]⟩
  | file c id =>
    cases h : get_item_by_id s id with
    | none => left; simp [button_handler, h]
    | some it =>
      by_cases hs : it.status = "filed"
      · left; simp [button_handler, h, hs]
      · right
        exact ⟨id, "filed", it.action, some c, by simp [button_handler, h, hs]⟩

/-- C9 amended: in every reachable store, `category` (the bucket) and
`filed_at` are both null or both set.  (The claim's second conjunct —
that a pending item has a null `action` — is refuted by the
counterexample: cancel resets only the status, keeping the action.) -/
theorem bucket_filedat_invariant_amended (s : Store) (hr : Reachable s) :
    ∀ it ∈ s, (it.category = none ↔ it.filed_at = none) := by
  induction hr with
  | init => simp
  | ingest s iid url sty sn ti rt sj now hs ih =>
    intro it hmem
    rw [save_item] at hmem
    split at hmem
    · exact ih it hmem
    · rcases List.mem_append.mp hmem with hmem1 | hmem1
      · exact ih it hmem1
      · simp only [List.mem_singleton] at hmem1
        subst hmem1
        simp
  | trigger s env now t hs ih =>
    intro it hmem
    rcases handler_store_cases env now s t with hcase | ⟨id, status, action, category, hcase⟩
    · rw [hcase] at hmem
      exact ih it hmem
    · rw [hcase] at hmem
      exact bf_inv_update s id status action category now ih it hmem

/-- The store after ingesting `i1`, accepting it, then cancelling. -/
def c9CxStore : Store :=
  (button_handler env0 9 (button_handler env0 8
      (save_item [] "i1" "u" "rss" "D" "t" "r" "sj" 3) (Trigger.yes "i1")).store
    (Trigger.cancel "i1")).store

/-- Store `c9CxStore` is reachable. -/
theorem c9CxStore_reachable : Reachable c9CxStore :=
  Reachable.trigger _ env0 9 (Trigger.cancel "i1")
    (Reachable.trigger _ env0 8 (Trigger.yes "i1")
      (Reachable.ingest [] "i1" "u" "rss" "D" "t" "r" "sj" 3 Reachable.init))

/-- C9 is false as stated: after accept followed by cancel — a reachable
sequence — item `i1` is pending (status `'new'`) yet its `action` is
`'yes'`, not null, because `triage_cancel` runs
`update_item_status(item_id, "new")`, resetting only the status. -/
theorem pending_action_counterexample :
    Reachable c9CxStore ∧
    (get_item_by_id c9CxStore "i1").map Item.status = some "new" ∧
    (get_item_by_id c9CxStore "i1").map Item.action = some (some "yes") := by
  refine ⟨c9CxStore_reachable, ?_, ?_⟩
  · decide
  · decide

/-- The record of `i1` in `c9CxStore`. -/
def c9Item : Item :=
  { item_id := "i1", source_url := "u", source_type := "rss",
    source_name := "D", title := "t", raw_text := "r", summary_json := "sj",
    status := "new", action := some "yes", category := none,
    created_at := 3, filed_at := none }

/-- Witness for C9's amended invariant at the concrete reachable store. -/
theorem bucket_filedat_invariant_amended_witness :
    c9Item.category = none ↔ c9Item.filed_at = none :=
  bucket_filedat_invariant_amended c9CxStore c9CxStore_reachable c9Item (by decide)

/-! ## C1 — at-most-once filing under concurrent `file_` triggers

The bot runs on one asyncio event loop (`python-telegram-bot`
`run_polling`); handler code between two `await` points executes as one
uninterruptible block, and the sqlite read (`get_item_by_id`), the status
guard, and the write (`update_item_status`) of the `file_` branch (lines
1149-1158) sit inside a single such block with no `await` between them —
`file_check_and_set`.  A concurrent execution of two `file_` handlers for
the same item is modelled as an arbitrary interleaving of each handler's
atomic blocks: its check-and-set block followed by its fan-out/ack block
(the `await`ed deliveries, performed only when its check-and-set
succeeded). -/

/-- Program counter and observables of one in-flight `file_` handler:
`pc = 0` before its check-and-set block, `pc = 1` before its
fan-out/acknowledgment block, `pc = 2` when done.  `fired` records
whether its check-and-set succeeded; `fanouts` counts the fan-out
delivery sets it has invoked. -/
structure ExecState where
  pc : Nat
  fired : Bool
  fanouts : Nat
deriving DecidableEq

/-- A handler that has not started. -/
def initExec : ExecState := { pc := 0, fired := false, fanouts := 0 }

/-- Run one atomic block of one handler against the shared store. -/
def stepExec (category item_id : String) (now : Nat) :
    Store × ExecState → Store × ExecState
  | (s, e) =>
    if e.pc = 0 then
      ((file_check_and_set s category item_id now).1,
       { pc := 1, fired := (file_check_and_set s category item_id now).2,
         fanouts := e.fanouts })
    else if e.pc = 1 then
      (s, { pc := 2, fired := e.fired,
            fanouts := e.fanouts + (if e.fired then 1 else 0) })
    else (s, e)

/-- Interleave two `file_` handler executions (`true` schedules a block
of the first, with bucket `c1`; `false` one of the second, with `c2`). -/
def run2 (c1 c2 id : String) (now : Nat) :
    List Bool → Store → ExecState → ExecState → Store × ExecState × ExecState
  | [], s, e1, e2 => (s, e1, e2)
  | true :: rest, s, e1, e2 =>
    run2 c1 c2 id now rest (stepExec c1 id now (s, e1)).1
      (stepExec c1 id now (s, e1)).2 e2
  | false :: rest, s, e1, e2 =>
    run2 c1 c2 id now rest (stepExec c2 id now (s, e2)).1 e1
      (stepExec c2 id now (s, e2)).2

/-- Whether the stored item has status `filed`. -/
def statusFiledB (s : Store) (id : String) : Bool :=
  match get_item_by_id s id with
  | some it => it.status == "filed"
  | none => false

/-- Invariant of the two-handler race. -/
structure RaceInv (id : String) (s : Store) (e1 e2 : ExecState) : Prop where
  present : (get_item_by_id s id).isSome = true
  filed_iff : statusFiledB s id = (e1.fired || e2.fired)
  not_both : (e1.fired && e2.fired) = false
  pc0_one : e1.pc = 0 → e1.fired = false
  pc0_two : e2.pc = 0 → e2.fired = false
  prog : e1.pc ≠ 0 ∨ e2.pc ≠ 0 → (e1.fired || e2.fired) = true
  fan_one : e1.fanouts = if 2 ≤ e1.pc ∧ e1.fired = true then 1 else 0
  fan_two : e2.fanouts = if 2 ≤ e2.pc ∧ e2.fired = true then 1 else 0

/-- The race invariant is symmetric in the two executions. -/
theorem raceInv_swap {id : String} {s : Store} {e1 e2 : ExecState}
    (h : RaceInv id s e1 e2) : RaceInv id s e2 e1 := by
  obtain ⟨hpres, hfil, hboth, hp1, hp2, hprog, hf1, hf2⟩ := h
  refine ⟨hpres, ?_, ?_, hp2, hp1, ?_, hf2, hf1⟩
  · rw [Bool.or_comm]; exact hfil
  · rw [Bool.and_comm]; exact hboth
  · intro hor
    rw [Bool.or_comm]
    exact hprog hor.symm

/-- A failed check-and-set (missing item or already filed). -/
theorem cas_of_filed (s : Store) (id c : String) (now : Nat) (it : Item)
    (hget : get_item_by_id s id = some it)
    (hf : (it.status == "filed") = true) :
    file_check_and_set s c id now = (s, false) := by
  simp [file_check_and_set, hget, eq_of_beq hf]

/-- A successful check-and-set commits `status='filed'`. -/
theorem cas_of_not_filed (s : Store) (id c : String) (now : Nat) (it : Item)
    (hget : get_item_by_id s id = some it)
    (hf : (it.status == "filed") = false) :
    file_check_and_set s c id now
      = (update_item_status s id "filed" it.action (some c) now, true) := by
  simp only [file_check_and_set, hget]
  simp [hf]

/-- After committing `status='filed'` the item is present and filed. -/
theorem statusFiledB_update_filed (s : Store) (id : String)
    (a : Option String) (c : String) (now : Nat) (it : Item)
    (hget : get_item_by_id s id = some it) :
    statusFiledB (update_item_status s id "filed" a (some c) now) id = true ∧
    (get_item_by_id (update_item_status s id "filed" a (some c) now) id).isSome
      = true := by
  constructor
  · simp [statusFiledB, get_item_by_id_update, hget, apply_update_status]
  · simp [get_item_by_id_update, hget]

/-- One block of the first execution preserves the race invariant. -/
theorem raceInv_step (c1 id : String) (now : Nat) (s : Store)
    (e1 e2 : ExecState) (h : RaceInv id s e1 e2) :
    RaceInv id (stepExec c1 id now (s, e1)).1
      (stepExec c1 id now (s, e1)).2 e2 := by
  obtain ⟨hpres, hfil, hboth, hp1, hp2, hprog, hf1, hf2⟩ := h
  obtain ⟨it, hit⟩ := Option.isSome_iff_exists.mp hpres
  by_cases h0 : e1.pc = 0
  · have he1 : e1.fired = false := hp1 h0
    have hfan0 : e1.fanouts = 0 := by
      rw [hf1, if_neg]
      omega
    by_cases hfd : statusFiledB s id = true
    · have hsf : (it.status == "filed") = true := by
        simpa [statusFiledB, hit] using hfd
      have hcas := cas_of_filed s id c1 now it hit hsf
      have he2 : e2.fired = true := by
        rw [hfil, he1] at hfd
        simpa using hfd
      simp only [stepExec, h0, if_true, hcas]
      refine ⟨hpres, ?_, ?_, ?_, hp2, ?_, ?_, hf2⟩
      · simpa [he2] using hfd
      · simp
      · intro hpc; simp at hpc
      · intro hpc; simp [he2]
      · simp [hfan0]
    · have hsb : statusFiledB s id = (it.status == "filed") := by
        simp [statusFiledB, hit]
      have hsf : (it.status == "filed") = false := by
        rw [hsb] at hfd
        exact Bool.eq_false_iff.mpr hfd
      have hcas := cas_of_not_filed s id c1 now it hit hsf
      have he2 : e2.fired = false := by
        rw [hfil, he1] at hfd
        simpa using hfd
      obtain ⟨hnewfiled, hnewpres⟩ :=
        statusFiledB_update_filed s id it.action c1 now it hit
      simp only [stepExec, h0, if_true, hcas]
      refine ⟨hnewpres, ?_, ?_, ?_, hp2, ?_, ?_, hf2⟩
      · simp [hnewfiled]
      · simp [he2]
      · intro hpc; simp at hpc
      · intro hpc; simp
      · simp [hfan0]
  · by_cases h1 : e1.pc = 1
    · have hor : (e1.fired || e2.fired) = true := hprog (Or.inl h0)
      have hfan0 : e1.fanouts = 0 := by
        rw [hf1, if_neg]
        omega
      simp only [stepExec, h1, h0, if_false, if_true]
      refine ⟨hpres, hfil, hboth, ?_, hp2, ?_, ?_, hf2⟩
      · intro hpc; simp at hpc
      · intro _; exact hor
      · cases hfb : e1.fired with
        | false => simp [hfan0, hfb]
        | true => simp [hfan0, hfb]
    · simp only [stepExec, h0, h1, if_false]
      exact ⟨hpres, hfil, hboth, hp1, hp2, hprog, hf1, hf2⟩

/-- Any interleaving preserves the race invariant. -/
theorem run2_inv (c1 c2 id : String) (now : Nat) :
    ∀ (sched : List Bool) (s : Store) (e1 e2 : ExecState),
      RaceInv id s e1 e2 →
      RaceInv id (run2 c1 c2 id now sched s e1 e2).1
        (run2 c1 c2 id now sched s e1 e2).2.1
        (run2 c1 c2 id now sched s e1 e2).2.2 := by
  intro sched
  induction sched with
  | nil => intro s e1 e2 h; simpa [run2] using h
  | cons b rest ih =>
    intro s e1 e2 h
    cases b with
    | true =>
      simp only [run2]
      exact ih _ _ _ (raceInv_step c1 id now s e1 e2 h)
    | false =>
      simp only [run2]
      exact ih _ _ _ (raceInv_swap (raceInv_step c2 id now s e2 e1 (raceInv_swap h)))

/-- The store effect of a `file_` trigger in `button_handler` is exactly
its check-and-set block. -/
theorem button_file_store_eq_cas (env : Env) (now : Nat) (s : Store)
    (c id : String) :
    (button_handler env now s (Trigger.file c id)).store
      = (file_check_and_set s c id now).1 := by
  cases h : get_item_by_id s id with
  | none => simp [button_handler, file_check_and_set, h]
  | some it =>
    by_cases hs : it.status = "filed" <;>
      simp [button_handler, file_check_and_set, h, hs]

/-- A `file_` trigger fans out exactly when its check-and-set succeeds. -/
theorem button_file_fanout_iff_cas (env : Env) (now : Nat) (s : Store)
    (c id : String) :
    ((button_handler env now s (Trigger.file c id)).deliveries ≠ []
      ↔ (file_check_and_set s c id now).2 = true) := by
  cases h : get_item_by_id s id with
  | none => simp [button_handler, file_check_and_set, h]
  | some it =>
    by_cases hs : it.status = "filed"
    · simp [button_handler, file_check_and_set, h, hs]
    · have hs' : (it.status == "filed") = false := by simp [hs]
      rw [file_success_eq env now s c id it h hs']
      simp [file_check_and_set, h, hs, fileDeliveries]

/-- C1: for any interleaving of the atomic blocks of two concurrent
`file_` (chooseBucket) handler executions on the same item — starting
from a store where the item exists and is not yet filed — once both
executions complete, exactly one of them performed the transition to
`filed`, exactly one fan-out delivery set was invoked, and the item ends
filed.  The status check and status update are a single atomic block
(`file_check_and_set`, no `await` between lines 1149 and 1158), which is
exactly the store effect of `button_handler` on a `file_` trigger, and a
handler fans out exactly when its own check-and-set succeeded. -/
theorem file_race_at_most_once (c1 c2 id : String) (now : Nat)
    (sched : List Bool) (s0 : Store) (it : Item)
    (hget : get_item_by_id s0 id = some it)
    (hnf : it.status ≠ "filed")
    (h1 : (run2 c1 c2 id now sched s0 initExec initExec).2.1.pc = 2)
    (h2 : (run2 c1 c2 id now sched s0 initExec initExec).2.2.pc = 2) :
    (((run2 c1 c2 id now sched s0 initExec initExec).2.1.fired = true ∧
      (run2 c1 c2 id now sched s0 initExec initExec).2.2.fired = false) ∨
     ((run2 c1 c2 id now sched s0 initExec initExec).2.1.fired = false ∧
      (run2 c1 c2 id now sched s0 initExec initExec).2.2.fired = true)) ∧
    (run2 c1 c2 id now sched s0 initExec initExec).2.1.fanouts +
      (run2 c1 c2 id now sched s0 initExec initExec).2.2.fanouts = 1 ∧
    statusFiledB (run2 c1 c2 id now sched s0 initExec initExec).1 id = true ∧
    (∀ (env : Env) (s : Store),
      (button_handler env now s (Trigger.file c1 id)).store
        = (file_check_and_set s c1 id now).1 ∧
      ((button_handler env now s (Trigger.file c1 id)).deliveries ≠ []
        ↔ (file_check_and_set s c1 id now).2 = true)) := by
  have hinv0 : RaceInv id s0 initExec initExec := by
    refine ⟨?_, ?_, rfl, fun _ => rfl, fun _ => rfl, ?_, ?_, ?_⟩
    · simp [hget]
    · simp [statusFiledB, hget, initExec, hnf]
    · intro hor
      rcases hor with hx | hx <;> simp [initExec] at hx
    · simp [initExec]
    · simp [initExec]
  obtain ⟨hpres, hfil, hboth, hh1, hh2, hprog, hf1, hf2⟩ :=
    run2_inv c1 c2 id now sched s0 initExec initExec hinv0
  have hor : ((run2 c1 c2 id now sched s0 initExec initExec).2.1.fired ||
      (run2 c1 c2 id now sched s0 initExec initExec).2.2.fired) = true := by
    apply hprog
    left
    rw [h1]
    norm_num
  refine ⟨?_, ?_, ?_, ?_⟩
  · cases hb1 : (run2 c1 c2 id now sched s0 initExec initExec).2.1.fired with
    | true =>
      left
      refine ⟨rfl, ?_⟩
      rw [hb1] at hboth
      simpa using hboth
    | false =>
      right
      refine ⟨rfl, ?_⟩
      rw [hb1] at hor
      simpa using hor
  · rw [hf1, hf2, h1, h2]
    cases hb1 : (run2 c1 c2 id now sched s0 initExec initExec).2.1.fired with
    | true =>
      have hb2 : (run2 c1 c2 id now sched s0 initExec initExec).2.2.fired = false := by
        rw [hb1] at hboth
        simpa using hboth
      simp [hb1, hb2]
    | false =>
      have hb2 : (run2 c1 c2 id now sched s0 initExec initExec).2.2.fired = true := by
        rw [hb1] at hor
        simpa using hor
      simp [hb1, hb2]
  · rw [hfil]
    exact hor
  · intro env s
    exact ⟨button_file_store_eq_cas env now s c1 id,
           button_file_fanout_iff_cas env now s c1 id⟩

/-- A concrete item awaiting bucket choice. -/
def itPicking : Item :=
  { item_id := "i3", source_url := "https://example.com/c",
    source_type := "rss", source_name := "Variety", title := "t3",
    raw_text := "", summary_json := "", status := "picking_category",
    action := some "yes", category := none, created_at := 1,
    filed_at := none }

/-- Witness for C1: both handlers run to completion under the schedule
first-runs-both-blocks-then-second; exactly one files and fans out. -/
theorem file_race_at_most_once_witness :
    (((run2 "financing" "misc" "i3" 9 [true, true, false, false]
        [itPicking] initExec initExec).2.1.fired = true ∧
      (run2 "financing" "misc" "i3" 9 [true, true, false, false]
        [itPicking] initExec initExec).2.2.fired = false) ∨
     ((run2 "financing" "misc" "i3" 9 [true, true, false, false]
        [itPicking] initExec initExec).2.1.fired = false ∧
      (run2 "financing" "misc" "i3" 9 [true, true, false, false]
        [itPicking] initExec initExec).2.2.fired = true)) ∧
    (run2 "financing" "misc" "i3" 9 [true, true, false, false]
        [itPicking] initExec initExec).2.1.fanouts +
      (run2 "financing" "misc" "i3" 9 [true, true, false, false]
        [itPicking] initExec initExec).2.2.fanouts = 1 ∧
    statusFiledB (run2 "financing" "misc" "i3" 9 [true, true, false, false]
        [itPicking] initExec initExec).1 "i3" = true := by
  obtain ⟨ha, hb, hc, hd⟩ :=
    file_race_at_most_once "financing" "misc" "i3" 9 [true, true, false, false]
      [itPicking] itPicking (by decide) (by decide) (by decide) (by decide)
  exact ⟨ha, hb, hc⟩
